import Mathlib

/-!
Verification of the quiet-hours push-notification backend.

The definitions below are a shallow embedding of the TypeScript sources
`src/backend/src/services/QuietHoursService.ts` and
`src/backend/src/services/NotificationService.ts` (with the entity shape from
`src/backend/src/entities/QuietHoursEntity.ts` and the repository from the
unnamed backend files).  Pure functions become Lean functions; the in-memory
notification queue (a JS Map) becomes an association list with explicit state
passing; thrown JS errors become `Except` values; the external delivery
transport becomes an explicit success oracle together with a trace of the
payloads handed to it.
-/

/-- Model of a JS `Date` value through its UTC calendar components.
Only `hours` and `minutes` are ever read by the quiet-hours logic
(`getUTCHours`/`getUTCMinutes`); comparisons between two dates are modelled
by `dateLt` below. -/
structure DateTime where
  year : Nat
  month : Nat
  day : Nat
  hours : Nat
  minutes : Nat
  seconds : Nat
  millis : Nat
deriving DecidableEq

/-- Lexicographic encoding of the calendar components.  JS compares `Date`
values by epoch milliseconds; for in-range component values this encoding is
order-isomorphic to that comparison. -/
def dateEncode (d : DateTime) : Nat :=
  (((((d.year * 13 + d.month) * 32 + d.day) * 24 + d.hours) * 60 + d.minutes) * 60
      + d.seconds) * 1000 + d.millis

/-- Model of the JS comparison `a < b` on two `Date` values. -/
def dateLt (a b : DateTime) : Bool :=
  decide (dateEncode a < dateEncode b)

/-- Model of a thrown JS `Error` as observed by callers: its `name`
(for example "ValidationError" or "NotFoundError") and its `message`. -/
structure JsError where
  name : String
  message : String
deriving DecidableEq

/-- Row shape of `QuietHoursEntity` (QuietHoursEntity.ts).  The DB-managed
`createdAt` and `updatedAt` timestamp columns are never read by any verified
logic and are omitted. -/
structure QuietHoursEntity where
  id : String
  userId : String
  startTime : String
  endTime : String
deriving DecidableEq

/-- The `QuietHourInput` interface of QuietHoursService.ts. -/
structure QuietHourInput where
  startTime : String
  endTime : String
deriving DecidableEq

/-- Model of `String.prototype.split(sep)` for a one-character separator,
written as structural recursion over the character list so that it reduces
in the kernel. -/
def splitCharsOn (sep : Char) : List Char → List (List Char)
  | [] => [[]]
  | c :: rest =>
    match splitCharsOn sep rest with
    | [] => [[]]
    | g :: gs => if c == sep then [] :: g :: gs else (c :: g) :: gs

/-- Model of the JS `Number(...)` coercion restricted to the strings this
code ever feeds it: an all-digit string yields its value, the empty string
yields 0, and anything else yields `none` (NaN). -/
def jsNumberAux : List Char → Nat → Option Nat
  | [], acc => some acc
  | c :: rest, acc =>
    if 48 ≤ c.toNat ∧ c.toNat ≤ 57 then jsNumberAux rest (acc * 10 + (c.toNat - 48))
    else none

/-- JS `Number` on a character list; `none` models NaN. -/
def jsNumber (s : List Char) : Option Nat :=
  jsNumberAux s 0

/-- QuietHoursService.timeToMinutes: split "HH:mm" on ":", coerce the first
two pieces with `Number`, and return `h * 60 + m`.  On malformed input the JS
original produces NaN; this model returns 0 there — the service only ever
applies it to validated "HH:mm" strings, where the two agree. -/
def timeToMinutes (time : String) : Nat :=
  match (splitCharsOn ':' time.data).map jsNumber with
  | some h :: some m :: _ => h * 60 + m
  | _ => 0

/-- The regular expression of QuietHoursService.validateTimeFormat,
transliterated character by character over the five-character shape it
anchors: caret, open paren, 01 class, digit, alternative 2 with 0-3 class,
close, colon, 0-5 class, digit, dollar. -/
def matchesTimeRegex (s : String) : Bool :=
  match s.data with
  | [c0, c1, c2, c3, c4] =>
    ((c0 == '0' || c0 == '1') && (48 ≤ c1.toNat && c1.toNat ≤ 57)
        || (c0 == '2' && (48 ≤ c1.toNat && c1.toNat ≤ 51)))
      && c2 == ':'
      && (48 ≤ c3.toNat && c3.toNat ≤ 53)
      && (48 ≤ c4.toNat && c4.toNat ≤ 57)
  | _ => false

/-- QuietHoursService.validateTimeFormat: regex check on both strings, then
the degenerate equal-endpoints check; the thrown ValidationErrors become
`Except.error` values. -/
def validateTimeFormat (startTime endTime : String) : Except JsError Unit :=
  if !matchesTimeRegex startTime || !matchesTimeRegex endTime then
    Except.error ⟨"ValidationError", "Start and end times must be in HH:mm format."⟩
  else if startTime == endTime then
    Except.error ⟨"ValidationError", "Start and end times cannot be the same."⟩
  else
    Except.ok ()

/-- QuietHoursService.periodsOverlap: normalize each interval into one or two
non-wrapping sub-ranges and test every pair with the half-open intersection
test. -/
def periodsOverlap (s1 e1 s2 e2 : Nat) : Bool :=
  let range1 := if e1 > s1 then [(s1, e1)] else [(s1, 1440), (0, e1)]
  let range2 := if e2 > s2 then [(s2, e2)] else [(s2, 1440), (0, e2)]
  range1.any fun a => range2.any fun b => decide (a.1 < b.2) && decide (b.1 < a.2)

/-- QuietHoursService.isTimeInPeriod: point containment with the overnight
branch.  The third source parameter is called `end`, a reserved word in Lean,
so it is renamed `endMin`. -/
def isTimeInPeriod (time start endMin : Nat) : Bool :=
  if start < endMin then decide (start ≤ time) && decide (time < endMin)
  else decide (start ≤ time) || decide (time < endMin)

/-- QuietHoursService.hasOverlap: scan the existing periods, skipping the one
whose id equals a truthy `editingId` (JS truthiness: the empty string does not
trigger the skip), and report whether any remaining period overlaps the
candidate input. -/
def hasOverlap (input : QuietHourInput) (existing : List QuietHoursEntity)
    (editingId : Option String) : Bool :=
  existing.any fun period =>
    !(match editingId with
      | some eid => (eid != "") && (period.id == eid)
      | none => false)
    && periodsOverlap (timeToMinutes input.startTime) (timeToMinutes input.endTime)
        (timeToMinutes period.startTime) (timeToMinutes period.endTime)

/-- QuietHoursService.isWithinQuietHours, with the repository lookup made
explicit: the stored window list of the user is passed in, and the instant is
reduced to its UTC minute-of-day exactly as the source does. -/
def isWithinQuietHours (quietHours : List QuietHoursEntity) (date : DateTime) : Bool :=
  if quietHours.length == 0 then false
  else
    let minutes := date.hours * 60 + date.minutes
    quietHours.any fun period =>
      isTimeInPeriod minutes (timeToMinutes period.startTime) (timeToMinutes period.endTime)

/-- QuietHoursService.createQuietHour with the repository state passed in:
validate, check overlap against the existing set, and on success append the
row the repository would persist (`newId` stands for the DB-generated uuid). -/
def createQuietHour (userId : String) (input : QuietHourInput)
    (existing : List QuietHoursEntity) (newId : String) :
    Except JsError (List QuietHoursEntity) :=
  match validateTimeFormat input.startTime input.endTime with
  | Except.error e => Except.error e
  | Except.ok _ =>
    if hasOverlap input existing none then
      Except.error ⟨"ValidationError", "Quiet hour periods cannot overlap."⟩
    else
      Except.ok (existing ++ [⟨newId, userId, input.startTime, input.endTime⟩])

/-- QuietHoursService.updateQuietHour with the repository state passed in:
validate, require the id to exist, check overlap excluding the edited row,
and on success replace that row in place. -/
def updateQuietHour (userId : String) (id : String) (input : QuietHourInput)
    (existing : List QuietHoursEntity) : Except JsError (List QuietHoursEntity) :=
  match validateTimeFormat input.startTime input.endTime with
  | Except.error e => Except.error e
  | Except.ok _ =>
    if !(existing.any fun qh => qh.id == id) then
      Except.error ⟨"NotFoundError", "Quiet hour period not found."⟩
    else if hasOverlap input existing (some id) then
      Except.error ⟨"ValidationError", "Quiet hour periods cannot overlap."⟩
    else
      Except.ok (existing.map fun p =>
        if p.id == id then ⟨p.id, p.userId, input.startTime, input.endTime⟩ else p)

/-- The `NotificationPayload` interface of NotificationService.ts.  The
`data` field is opaque to all verified logic and is modelled as an optional
string. -/
structure NotificationPayload where
  userId : String
  message : String
  data : Option String
  timestamp : DateTime
  relevanceExpiresAt : Option DateTime
deriving DecidableEq

/-- The `QueuedNotification` interface: a payload plus the instant it was
queued. -/
structure QueuedNotification extends NotificationPayload where
  queuedAt : DateTime
deriving DecidableEq

/-- The module-level `notificationQueue: Map<string, QueuedNotification[]>`
modelled as an association list with unique keys.  Lookup of an absent key
yields `[]`, matching the `|| []` defaulting at every use site. -/
abbrev QueueMap : Type := List (String × List QueuedNotification)

/-- Map lookup with the get-or-default-to-empty behaviour of the source. -/
def mapGet (q : QueueMap) (k : String) : List QueuedNotification :=
  match q with
  | [] => []
  | (k', v) :: rest => if k' == k then v else mapGet rest k

/-- Remove every entry with the given key. -/
def mapEraseKey : QueueMap → String → QueueMap
  | [], _ => []
  | (k', v) :: rest, k =>
    if k' == k then mapEraseKey rest k else (k', v) :: mapEraseKey rest k

/-- JS `Map.set`: bind the key to the value (entry order in the map is never
observed by the verified logic, so the rebound entry is placed in front). -/
def mapSet (q : QueueMap) (k : String) (v : List QueuedNotification) : QueueMap :=
  (k, v) :: mapEraseKey q k

/-- JS `Map.delete`. -/
def mapDelete (q : QueueMap) (k : String) : QueueMap :=
  mapEraseKey q k

/-- JS `Map.has`, used to observe that a subject entry was removed. -/
def mapContains (q : QueueMap) (k : String) : Bool :=
  q.any fun e => e.1 == k

/-- NotificationService.queueNotification: append a copy of the payload
tagged with `queuedAt = now` to the FIFO queue of its user. -/
def queueNotification (payload : NotificationPayload) (now : DateTime)
    (queue : QueueMap) : QueueMap :=
  let userQueue := mapGet queue payload.userId
  mapSet queue payload.userId (userQueue ++ [⟨payload, now⟩])

/-- NotificationService.sendNotification with the quiet-hours lookup and the
clock made explicit: `windows` is the stored window set of the payload user
and `now` is the instant `new Date()` would produce inside
`queueNotification`.  The result is the new queue state, the trace of
payloads handed to the external delivery transport, and the returned
boolean (true = delivered, false = queued). -/
def sendNotification (windows : List QuietHoursEntity) (payload : NotificationPayload)
    (now : DateTime) (queue : QueueMap) : QueueMap × List NotificationPayload × Bool :=
  if isWithinQuietHours windows payload.timestamp then
    (queueNotification payload now queue, [], false)
  else
    (queue, [payload], true)

/-- The relevance check of NotificationService.deliverQueuedNotifications:
`notification.relevanceExpiresAt && now > notification.relevanceExpiresAt`
(a JS `Date` object is always truthy, so the first conjunct is a presence
check). -/
def isExpired (now : DateTime) (n : QueuedNotification) : Bool :=
  match n.relevanceExpiresAt with
  | some exp => dateLt exp now
  | none => false

/-- The per-item loop of deliverQueuedNotifications over one user queue, with
the delivery transport abstracted by the success oracle `deliverOk`.  Returns
the `deliveredCount` the source accumulates, the FIFO trace of items actually
handed to the transport, and the `remainingQueue` of retained items. -/
def sweepQueue (deliverOk : QueuedNotification → Bool) (now : DateTime) :
    List QueuedNotification → Nat × List QueuedNotification × List QueuedNotification
  | [] => (0, [], [])
  | n :: rest =>
    let r := sweepQueue deliverOk now rest
    if isExpired now n then r
    else if deliverOk n then (r.1 + 1, n :: r.2.1, r.2.2)
    else (r.1, r.2.1, n :: r.2.2)

/-- NotificationService.deliverQueuedNotifications: sweep the user queue,
store the remaining items back (or delete the map entry when none remain),
and return the delivered count — the sole value the source returns — together
with the new queue state and the delivery trace. -/
def deliverQueuedNotifications (deliverOk : QueuedNotification → Bool) (now : DateTime)
    (userId : String) (queue : QueueMap) : Nat × QueueMap × List QueuedNotification :=
  let userQueue := mapGet queue userId
  let r := sweepQueue deliverOk now userQueue
  (r.1,
   if r.2.2.length > 0 then mapSet queue userId r.2.2 else mapDelete queue userId,
   r.2.1)

/-- Spec-side definition for the overlap claim: the normalization of one
interval into non-wrapping sub-ranges over [0, 1440), as the specification
words it. -/
def subRangesSpec (s e : Nat) : List (Nat × Nat) :=
  if e > s then [(s, e)] else [(s, 1440), (0, e)]

/-- Zero-padded two-digit rendering, spec-side, for stating what the time
regular expression accepts. -/
def pad2 (n : Nat) : String :=
  if n < 10 then "0" ++ toString n else toString n

/-- Spec-side canonical "HH:mm" rendering of an hour and minute pair. -/
def timeString (h m : Nat) : String :=
  pad2 h ++ ":" ++ pad2 m

/-- Sample stored window 22:00 to 07:00, the overnight window of the
specification scenarios. -/
def windowNight : QuietHoursEntity := ⟨"w1", "u1", "22:00", "07:00"⟩

/-- Sample instant at 23:30 UTC. -/
def dNight : DateTime := ⟨2024, 1, 15, 23, 30, 0, 0⟩

/-- Sample instant on another calendar date with the same UTC hour and
minute as `dNight` but different seconds and milliseconds. -/
def dOther : DateTime := ⟨1999, 12, 31, 23, 30, 59, 999⟩

/-- Sample payload generated at 23:30, inside the overnight window. -/
def payNight : NotificationPayload := ⟨"u1", "hello", none, dNight, none⟩

/-- Sample wall-clock instant used as `new Date()` when queueing. -/
def nowSample : DateTime := ⟨2024, 1, 15, 23, 31, 0, 0⟩

/-- Sample relevance deadline T at 07:00. -/
def expiryT : DateTime := ⟨2024, 1, 15, 7, 0, 0, 0⟩

/-- Sample sweep instant strictly after `expiryT`. -/
def nowAfterT : DateTime := ⟨2024, 1, 15, 8, 0, 0, 0⟩

/-- Sample queued item whose relevance deadline `expiryT` has passed by
`nowAfterT`. -/
def itemExpired : QueuedNotification :=
  ⟨⟨"u1", "stale", none, ⟨2024, 1, 14, 23, 0, 0, 0⟩, some expiryT⟩,
   ⟨2024, 1, 14, 23, 0, 0, 0⟩⟩

/-- Sample queued item with no relevance deadline. -/
def itemFresh : QueuedNotification :=
  ⟨⟨"u1", "fresh", none, ⟨2024, 1, 14, 23, 0, 0, 0⟩, none⟩,
   ⟨2024, 1, 14, 23, 0, 0, 0⟩⟩

/-- Delivery transport oracle that always succeeds. -/
def deliverAlways : QueuedNotification → Bool := fun _ => true

/-- Delivery transport oracle that always fails. -/
def deliverNever : QueuedNotification → Bool := fun _ => false

/-- Queue state with one fresh item for user u1. -/
def qFresh : QueueMap := [("u1", [itemFresh])]

/-- Queue state with one expired and one fresh item for user u1. -/
def qFailing : QueueMap := [("u1", [itemExpired, itemFresh])]

lemma pad2_digits : ∀ a < 10, ∀ b < 10,
    (pad2 (10 * a + b)).data = [Char.ofNat (48 + a), Char.ofNat (48 + b)] := by decide

set_option maxHeartbeats 1000000 in
lemma matchesTimeRegex_of_timeString : ∀ h < 24, ∀ m < 60,
    matchesTimeRegex (timeString h m) = true := by decide

lemma timeString_of_digits (c0 c1 c3 c4 : Char)
    (h0 : 48 ≤ c0.toNat) (h0b : c0.toNat ≤ 57)
    (h1 : 48 ≤ c1.toNat) (h1b : c1.toNat ≤ 57)
    (h3 : 48 ≤ c3.toNat) (h3b : c3.toNat ≤ 57)
    (h4 : 48 ≤ c4.toNat) (h4b : c4.toNat ≤ 57) :
    timeString (10 * (c0.toNat - 48) + (c1.toNat - 48))
        (10 * (c3.toNat - 48) + (c4.toNat - 48)) = String.mk [c0, c1, ':', c3, c4] := by
  have d1 := pad2_digits (c0.toNat - 48) (by omega) (c1.toNat - 48) (by omega)
  have d2 := pad2_digits (c3.toNat - 48) (by omega) (c4.toNat - 48) (by omega)
  have e0 : 48 + (c0.toNat - 48) = c0.toNat := by omega
  have e1 : 48 + (c1.toNat - 48) = c1.toNat := by omega
  have e3 : 48 + (c3.toNat - 48) = c3.toNat := by omega
  have e4 : 48 + (c4.toNat - 48) = c4.toNat := by omega
  apply String.ext
  rw [timeString, String.data_append, String.data_append, d1, d2]
  rw [e0, e1, e3, e4, Char.ofNat_toNat, Char.ofNat_toNat, Char.ofNat_toNat, Char.ofNat_toNat]
  rfl

lemma matchesTimeRegex_iff (s : String) :
    matchesTimeRegex s = true ↔ ∃ h ≤ 23, ∃ m ≤ 59, s = timeString h m := by
  constructor
  · intro hmatch
    obtain ⟨data⟩ := s
    match data with
    | [c0, c1, c2, c3, c4] =>
      simp only [matchesTimeRegex, Bool.and_eq_true, Bool.or_eq_true, beq_iff_eq,
        decide_eq_true_eq] at hmatch
      obtain ⟨⟨⟨hc01, hc2⟩, hc3⟩, hc4⟩ := hmatch
      subst hc2
      have hnum : 48 ≤ c0.toNat ∧ c0.toNat ≤ 57 ∧ 48 ≤ c1.toNat ∧ c1.toNat ≤ 57 ∧
          10 * (c0.toNat - 48) + (c1.toNat - 48) ≤ 23 := by
        rcases hc01 with ⟨hc0 | hc0, hc1⟩ | ⟨hc0, hc1⟩ <;> subst hc0 <;>
          simp only [show ('0' : Char).toNat = 48 from rfl,
            show ('1' : Char).toNat = 49 from rfl,
            show ('2' : Char).toNat = 50 from rfl] <;> omega
      exact ⟨10 * (c0.toNat - 48) + (c1.toNat - 48), hnum.2.2.2.2,
             10 * (c3.toNat - 48) + (c4.toNat - 48), by omega,
             (timeString_of_digits c0 c1 c3 c4 hnum.1 hnum.2.1 hnum.2.2.1 hnum.2.2.2.1
               hc3.1 (by omega) hc4.1 hc4.2).symm⟩
    | [] => simp [matchesTimeRegex] at hmatch
    | [a] => simp [matchesTimeRegex] at hmatch
    | [a,b] => simp [matchesTimeRegex] at hmatch
    | [a,b,c] => simp [matchesTimeRegex] at hmatch
    | [a,b,c,d] => simp [matchesTimeRegex] at hmatch
    | a::b::c::d::e::f::rest => simp [matchesTimeRegex] at hmatch
  · rintro ⟨h, hh, m, hm, rfl⟩
    exact matchesTimeRegex_of_timeString h (by omega) m (by omega)

lemma mapGet_eraseKey_self (q : QueueMap) (k : String) :
    mapGet (mapEraseKey q k) k = [] := by
  induction q with
  | nil => rfl
  | cons e rest ih =>
    obtain ⟨k', v⟩ := e
    by_cases h : k' = k
    · simp [mapEraseKey, h, ih]
    · simp [mapEraseKey, mapGet, h, ih]

lemma mapGet_eraseKey_ne (q : QueueMap) (k u : String) (h : u ≠ k) :
    mapGet (mapEraseKey q k) u = mapGet q u := by
  induction q with
  | nil => rfl
  | cons e rest ih =>
    obtain ⟨k', v⟩ := e
    by_cases hk : k' = k
    · subst hk
      simp [mapEraseKey, mapGet, Ne.symm h, ih]
    · by_cases hu : k' = u
      · subst hu
        simp [mapEraseKey, mapGet, hk, h, ih]
      · simp [mapEraseKey, mapGet, hk, hu, ih]

lemma mapGet_mapSet_self (q : QueueMap) (k : String) (v : List QueuedNotification) :
    mapGet (mapSet q k v) k = v := by
  simp [mapSet, mapGet]

lemma mapGet_mapSet_ne (q : QueueMap) (k u : String) (v : List QueuedNotification)
    (h : u ≠ k) : mapGet (mapSet q k v) u = mapGet q u := by
  have : k ≠ u := fun he => h he.symm
  simp [mapSet, mapGet, this, mapGet_eraseKey_ne q k u h]

lemma mapContains_eraseKey_self (q : QueueMap) (k : String) :
    mapContains (mapEraseKey q k) k = false := by
  induction q with
  | nil => rfl
  | cons e rest ih =>
    obtain ⟨k', v⟩ := e
    by_cases h : k' = k <;> simp [mapEraseKey, mapContains, h, ih] <;>
      simpa [mapContains] using ih

lemma sweepQueue_not_mem_of_expired (deliverOk : QueuedNotification → Bool)
    (now : DateTime) (n : QueuedNotification) (h : isExpired now n = true) :
    ∀ q : List QueuedNotification,
      n ∉ (sweepQueue deliverOk now q).2.1 ∧ n ∉ (sweepQueue deliverOk now q).2.2 := by
  intro q
  induction q with
  | nil => simp [sweepQueue]
  | cons m rest ih =>
    by_cases hm : isExpired now m = true
    · simpa [sweepQueue, hm] using ih
    · have hnm : n ≠ m := fun he => hm (he ▸ h)
      by_cases hd : deliverOk m = true <;>
        simp [sweepQueue, hm, hd, hnm, ih.1, ih.2]

lemma sweepQueue_remaining_eq_filter (deliverOk : QueuedNotification → Bool)
    (now : DateTime) :
    ∀ q : List QueuedNotification,
      (sweepQueue deliverOk now q).2.2 =
        q.filter fun n => !isExpired now n && !deliverOk n := by
  intro q
  induction q with
  | nil => rfl
  | cons m rest ih =>
    cases hm : isExpired now m <;> cases hd : deliverOk m <;>
      simp [sweepQueue, List.filter_cons, hm, hd, ih]

lemma sweepQueue_count_eq_length (deliverOk : QueuedNotification → Bool)
    (now : DateTime) :
    ∀ q : List QueuedNotification,
      (sweepQueue deliverOk now q).1 = (sweepQueue deliverOk now q).2.1.length := by
  intro q
  induction q with
  | nil => rfl
  | cons m rest ih =>
    cases hm : isExpired now m <;> cases hd : deliverOk m <;>
      simp [sweepQueue, hm, hd, ih]

/-- C1: for minute values in [0, 1440), periodsOverlap returns true exactly
when, after normalizing each interval into one non-wrapping sub-range (when
the end exceeds the start) or two sub-ranges [s, 1440) and [0, e) (when the
end is at most the start), some pair of sub-ranges satisfies the strict
half-open intersection test a1 < b2 and b1 < a2; in particular back-to-back
intervals that merely touch at an endpoint — both in the non-wrapping general
case and in the concrete wrap-around instance 22:00-07:00 against
07:00-08:00 — do not overlap. -/
theorem periodsOverlap_subranges :
    (∀ s1 e1 s2 e2 : Nat, s1 < 1440 → e1 < 1440 → s2 < 1440 → e2 < 1440 →
      (periodsOverlap s1 e1 s2 e2 = true ↔
        ∃ a ∈ subRangesSpec s1 e1, ∃ b ∈ subRangesSpec s2 e2, a.1 < b.2 ∧ b.1 < a.2)) ∧
    (∀ s e f : Nat, s < e → e < f → periodsOverlap s e e f = false) ∧
    periodsOverlap 1320 420 420 480 = false := by
  refine ⟨fun s1 e1 s2 e2 _ _ _ _ => ?_, fun s e f hse hef => ?_, by decide⟩
  · simp [periodsOverlap, subRangesSpec, List.any_eq_true]
  · simp only [periodsOverlap, if_pos (by omega : e > s), if_pos (by omega : f > e)]
    simp

/-- Witness for C1: the overlap equivalence applied to the overnight window
22:00-07:00 against 06:00-08:00, and a touching back-to-back pair. -/
theorem periodsOverlap_subranges_witness :
    ((1320 : Nat) < 1440 ∧
      (periodsOverlap 1320 420 360 480 = true ↔
        ∃ a ∈ subRangesSpec 1320 420, ∃ b ∈ subRangesSpec 360 480,
          a.1 < b.2 ∧ b.1 < a.2)) ∧
    periodsOverlap 600 720 720 780 = false :=
  ⟨⟨by decide,
    periodsOverlap_subranges.1 1320 420 360 480 (by decide) (by decide) (by decide)
      (by decide)⟩,
   periodsOverlap_subranges.2.1 600 720 780 (by decide) (by decide)⟩

/-- C2: isTimeInPeriod returns the conjunction test for a non-wrapping
interval, the disjunction test for a wrapping interval, and true for every
time when start equals end, so the primitive is total (it is a total Lean
function and never throws). -/
theorem isTimeInPeriod_cases :
    (∀ t s e : Nat, s < e → isTimeInPeriod t s e = (decide (s ≤ t) && decide (t < e))) ∧
    (∀ t s e : Nat, e < s → isTimeInPeriod t s e = (decide (s ≤ t) || decide (t < e))) ∧
    (∀ t s : Nat, isTimeInPeriod t s s = true) := by
  refine ⟨fun t s e hse => ?_, fun t s e hes => ?_, fun t s => ?_⟩
  · simp [isTimeInPeriod, hse]
  · simp only [isTimeInPeriod, if_neg (by omega : ¬ s < e)]
  · simp only [isTimeInPeriod, if_neg (by omega : ¬ s < s)]
    simp
    omega

/-- Witness for C2: a daytime containment, an overnight containment, and the
degenerate full-day case at concrete inputs. -/
theorem isTimeInPeriod_cases_witness :
    ((780 : Nat) < 900 ∧
      isTimeInPeriod 840 780 900 = (decide ((780 : Nat) ≤ 840) && decide ((840 : Nat) < 900))) ∧
    ((420 : Nat) < 1320 ∧
      isTimeInPeriod 390 1320 420 = (decide ((1320 : Nat) ≤ 390) || decide ((390 : Nat) < 420))) ∧
    isTimeInPeriod 615 615 615 = true :=
  ⟨⟨by decide, isTimeInPeriod_cases.1 840 780 900 (by decide)⟩,
   ⟨by decide, isTimeInPeriod_cases.2.1 390 1320 420 (by decide)⟩,
   isTimeInPeriod_cases.2.2 615 615⟩

/-- C3: isWithinQuietHours is true exactly when some stored window contains
the minute-of-day of the instant, an empty window set always yields false,
and for the single window 22:00-07:00 it is true at 23:30 and 06:30 and
false at 08:00. -/
theorem isWithinQuietHours_spec :
    (∀ ws d, isWithinQuietHours ws d = true ↔
      ∃ p ∈ ws, isTimeInPeriod (d.hours * 60 + d.minutes)
        (timeToMinutes p.startTime) (timeToMinutes p.endTime) = true) ∧
    (∀ d, isWithinQuietHours [] d = false) ∧
    isWithinQuietHours [windowNight] ⟨2024, 1, 15, 23, 30, 0, 0⟩ = true ∧
    isWithinQuietHours [windowNight] ⟨2024, 1, 15, 6, 30, 0, 0⟩ = true ∧
    isWithinQuietHours [windowNight] ⟨2024, 1, 15, 8, 0, 0, 0⟩ = false := by
  refine ⟨fun ws d => ?_, fun d => rfl, by decide, by decide, by decide⟩
  cases ws with
  | nil => simp [isWithinQuietHours]
  | cons p l => simp [isWithinQuietHours, List.any_eq_true]

/-- C4 (amended): the insert and update overlap checks fail with a
ValidationError whose message is "Quiet hour periods cannot overlap." —
carrying no conflicting window id — exactly when the candidate overlaps at
least one existing window other than the one matching a non-empty excludeId;
concretely, against the existing window 22:00-07:00 a candidate 06:00-08:00
is rejected with that error on both create and update. -/
theorem hasOverlap_excluding_spec :
    (∀ (input : QuietHourInput) (existing : List QuietHoursEntity) (eid : String),
      eid ≠ "" →
      (hasOverlap input existing (some eid) = true ↔
        ∃ p ∈ existing, p.id ≠ eid ∧
          periodsOverlap (timeToMinutes input.startTime) (timeToMinutes input.endTime)
            (timeToMinutes p.startTime) (timeToMinutes p.endTime) = true)) ∧
    (∀ (input : QuietHourInput) (existing : List QuietHoursEntity),
      (hasOverlap input existing none = true ↔
        ∃ p ∈ existing,
          periodsOverlap (timeToMinutes input.startTime) (timeToMinutes input.endTime)
            (timeToMinutes p.startTime) (timeToMinutes p.endTime) = true)) ∧
    createQuietHour "u1" ⟨"06:00", "08:00"⟩ [windowNight] "n1" =
      Except.error ⟨"ValidationError", "Quiet hour periods cannot overlap."⟩ ∧
    updateQuietHour "u1" "w2" ⟨"06:00", "08:00"⟩
        [windowNight, ⟨"w2", "u1", "12:00", "13:00"⟩] =
      Except.error ⟨"ValidationError", "Quiet hour periods cannot overlap."⟩ := by
  refine ⟨fun input existing eid heid => ?_, fun input existing => ?_, rfl, rfl⟩
  · simp [hasOverlap, List.any_eq_true, heid]
  · simp [hasOverlap, List.any_eq_true]

/-- Witness for C4: the exclusion equivalence applied with the non-empty
excludeId of the only existing window, under which no conflict remains. -/
theorem hasOverlap_excluding_witness :
    ("w1" : String) ≠ "" ∧
    (hasOverlap ⟨"06:00", "08:00"⟩ [windowNight] (some "w1") = true ↔
      ∃ p ∈ [windowNight], p.id ≠ "w1" ∧
        periodsOverlap (timeToMinutes "06:00") (timeToMinutes "08:00")
          (timeToMinutes p.startTime) (timeToMinutes p.endTime) = true) :=
  ⟨by decide, hasOverlap_excluding_spec.1 ⟨"06:00", "08:00"⟩ [windowNight] "w1" (by decide)⟩

/-- Counterexample for C4 as stated: two existing sets whose only windows
conflict with the candidate but carry different ids produce literally the
same failure value, so the Overlap failure cannot carry the conflicting
window id. -/
theorem overlap_error_lacks_conflicting_id :
    createQuietHour "u1" ⟨"06:00", "08:00"⟩ [⟨"idA", "u1", "22:00", "07:00"⟩] "n1" =
      createQuietHour "u1" ⟨"06:00", "08:00"⟩ [⟨"idB", "u1", "22:00", "07:00"⟩] "n1" ∧
    ("idA" : String) ≠ "idB" ∧
    createQuietHour "u1" ⟨"06:00", "08:00"⟩ [⟨"idA", "u1", "22:00", "07:00"⟩] "n1" =
      Except.error ⟨"ValidationError", "Quiet hour periods cannot overlap."⟩ :=
  ⟨rfl, by decide, rfl⟩

/-- C5: validation succeeds exactly when both strings are zero-padded
"HH:mm" renderings of an hour at most 23 and a minute at most 59 and the two
strings differ; any malformed string yields the invalid-format
ValidationError, well-formed equal endpoints yield the degenerate-window
ValidationError, and a validation error makes create and update fail with
that very error before any state is touched. -/
theorem validateTimeFormat_spec :
    (∀ s e : String, validateTimeFormat s e = Except.ok () ↔
      (∃ h ≤ 23, ∃ m ≤ 59, s = timeString h m) ∧
      (∃ h ≤ 23, ∃ m ≤ 59, e = timeString h m) ∧ s ≠ e) ∧
    (∀ s e : String, matchesTimeRegex s = false ∨ matchesTimeRegex e = false →
      validateTimeFormat s e =
        Except.error ⟨"ValidationError", "Start and end times must be in HH:mm format."⟩) ∧
    (∀ s : String, matchesTimeRegex s = true →
      validateTimeFormat s s =
        Except.error ⟨"ValidationError", "Start and end times cannot be the same."⟩) ∧
    (∀ (userId : String) (input : QuietHourInput) (existing : List QuietHoursEntity)
        (newId : String) (err : JsError),
      validateTimeFormat input.startTime input.endTime = Except.error err →
      createQuietHour userId input existing newId = Except.error err) ∧
    (∀ (userId id : String) (input : QuietHourInput) (existing : List QuietHoursEntity)
        (err : JsError),
      validateTimeFormat input.startTime input.endTime = Except.error err →
      updateQuietHour userId id input existing = Except.error err) := by
  refine ⟨fun s e => ?_, fun s e h => ?_, fun s h => ?_,
          fun userId input existing newId err h => ?_, fun userId id input existing err h => ?_⟩
  · rw [← matchesTimeRegex_iff, ← matchesTimeRegex_iff]
    unfold validateTimeFormat
    rcases hs : matchesTimeRegex s with _ | _ <;> rcases he : matchesTimeRegex e with _ | _ <;>
      simp [hs, he]
  · unfold validateTimeFormat
    rcases h with h | h <;> simp [h]
  · simp [validateTimeFormat, h]
  · unfold createQuietHour
    rw [h]
  · unfold updateQuietHour
    rw [h]

/-- Witness for C5: a valid pair is accepted, a malformed start is rejected
with the format error, equal endpoints are rejected with the degenerate
error, and the malformed pair makes create fail before any state change. -/
theorem validateTimeFormat_spec_witness :
    validateTimeFormat "22:00" "07:00" = Except.ok () ∧
    validateTimeFormat "7:00" "08:00" =
      Except.error ⟨"ValidationError", "Start and end times must be in HH:mm format."⟩ ∧
    validateTimeFormat "22:00" "22:00" =
      Except.error ⟨"ValidationError", "Start and end times cannot be the same."⟩ ∧
    createQuietHour "u1" ⟨"7:00", "08:00"⟩ [windowNight] "n1" =
      Except.error ⟨"ValidationError", "Start and end times must be in HH:mm format."⟩ :=
  ⟨(validateTimeFormat_spec.1 "22:00" "07:00").mpr
    ⟨⟨22, by decide, 0, by decide, by decide⟩, ⟨7, by decide, 0, by decide, by decide⟩,
      by decide⟩,
   validateTimeFormat_spec.2.1 "7:00" "08:00" (Or.inl (by decide)),
   validateTimeFormat_spec.2.2.1 "22:00" (by decide),
   validateTimeFormat_spec.2.2.2.1 "u1" ⟨"7:00", "08:00"⟩ [windowNight] "n1"
     ⟨"ValidationError", "Start and end times must be in HH:mm format."⟩ rfl⟩

/-- C6: when the quiet decision for the payload timestamp is true,
sendNotification appends exactly one item tagged with queuedAt equal to the
current instant to the FIFO queue of that user, leaves every other queue
unchanged, hands nothing to the delivery transport, and returns false
(Queued); when the decision is false it hands exactly the payload to the
transport, leaves the whole queue state unchanged, and returns true
(Delivered). -/
theorem sendNotification_spec :
    ∀ (windows : List QuietHoursEntity) (payload : NotificationPayload)
      (now : DateTime) (queue : QueueMap),
      (isWithinQuietHours windows payload.timestamp = true →
        sendNotification windows payload now queue =
          (queueNotification payload now queue, [], false) ∧
        mapGet (queueNotification payload now queue) payload.userId =
          mapGet queue payload.userId ++ [⟨payload, now⟩] ∧
        (∀ u, u ≠ payload.userId →
          mapGet (queueNotification payload now queue) u = mapGet queue u)) ∧
      (isWithinQuietHours windows payload.timestamp = false →
        sendNotification windows payload now queue = (queue, [payload], true)) := by
  intro windows payload now queue
  constructor
  · intro hq
    refine ⟨by simp [sendNotification, hq], ?_, ?_⟩
    · simp [queueNotification, mapGet_mapSet_self]
    · intro u hu
      simp [queueNotification, mapGet_mapSet_ne _ _ _ _ hu]
  · intro hq
    simp [sendNotification, hq]

/-- Witness for C6: a payload timestamped 23:30 inside the stored window
22:00-07:00 is queued with the current instant and not delivered. -/
theorem sendNotification_spec_witness :
    isWithinQuietHours [windowNight] payNight.timestamp = true ∧
    sendNotification [windowNight] payNight nowSample [] =
      (queueNotification payNight nowSample [], [], false) ∧
    mapGet (queueNotification payNight nowSample []) payNight.userId =
      mapGet ([] : QueueMap) payNight.userId ++ [⟨payNight, nowSample⟩] :=
  ⟨by decide,
   ((sendNotification_spec [windowNight] payNight nowSample []).1 (by decide)).1,
   ((sendNotification_spec [windowNight] payNight nowSample []).1 (by decide)).2.1⟩

/-- C7: during a sweep, an item whose relevance deadline is set and strictly
earlier than now is dropped before any delivery decision — whatever the
delivery oracle does, so in particular also when quiet hours are over — and
ends up neither in the delivery trace nor in the retained queue of its
user. -/
theorem expired_never_delivered :
    ∀ (deliverOk : QueuedNotification → Bool) (now : DateTime) (userId : String)
      (queue : QueueMap) (n : QueuedNotification) (exp : DateTime),
      n.relevanceExpiresAt = some exp → dateLt exp now = true →
        n ∉ (deliverQueuedNotifications deliverOk now userId queue).2.2 ∧
        n ∉ mapGet (deliverQueuedNotifications deliverOk now userId queue).2.1 userId := by
  intro deliverOk now userId queue n exp hset hlt
  have hexp : isExpired now n = true := by simp [isExpired, hset, hlt]
  have hmem := sweepQueue_not_mem_of_expired deliverOk now n hexp (mapGet queue userId)
  simp only [deliverQueuedNotifications]
  refine ⟨hmem.1, ?_⟩
  by_cases hrem : (sweepQueue deliverOk now (mapGet queue userId)).2.2.length > 0
  · rw [if_pos hrem, mapGet_mapSet_self]
    exact hmem.2
  · rw [if_neg hrem]
    show n ∉ mapGet (mapEraseKey queue userId) userId
    rw [mapGet_eraseKey_self]
    simp

/-- Witness for C7: the item whose deadline T has passed is neither
delivered nor retained even though the delivery transport would succeed. -/
theorem expired_never_delivered_witness :
    itemExpired.relevanceExpiresAt = some expiryT ∧ dateLt expiryT nowAfterT = true ∧
    itemExpired ∉
      (deliverQueuedNotifications deliverAlways nowAfterT "u1" [("u1", [itemExpired])]).2.2 ∧
    itemExpired ∉
      mapGet (deliverQueuedNotifications deliverAlways nowAfterT "u1"
        [("u1", [itemExpired])]).2.1 "u1" :=
  ⟨rfl, by decide,
   (expired_never_delivered deliverAlways nowAfterT "u1" [("u1", [itemExpired])]
     itemExpired expiryT rfl (by decide)).1,
   (expired_never_delivered deliverAlways nowAfterT "u1" [("u1", [itemExpired])]
     itemExpired expiryT rfl (by decide)).2⟩

/-- C8: after a sweep, the retained queue is exactly the list of non-expired
items whose delivery attempt failed, in their original order; when nothing
remains the subject entry is removed from the queue store entirely, and when
something remains the stored entry equals that filtered list. -/
theorem deliverQueued_remaining_spec :
    ∀ (deliverOk : QueuedNotification → Bool) (now : DateTime) (userId : String)
      (queue : QueueMap),
      (sweepQueue deliverOk now (mapGet queue userId)).2.2 =
        (mapGet queue userId).filter (fun n => !isExpired now n && !deliverOk n) ∧
      ((sweepQueue deliverOk now (mapGet queue userId)).2.2 = [] →
        mapContains (deliverQueuedNotifications deliverOk now userId queue).2.1 userId
            = false ∧
        mapGet (deliverQueuedNotifications deliverOk now userId queue).2.1 userId = []) ∧
      ((sweepQueue deliverOk now (mapGet queue userId)).2.2 ≠ [] →
        mapGet (deliverQueuedNotifications deliverOk now userId queue).2.1 userId =
          (mapGet queue userId).filter (fun n => !isExpired now n && !deliverOk n)) := by
  intro deliverOk now userId queue
  refine ⟨sweepQueue_remaining_eq_filter deliverOk now (mapGet queue userId), ?_, ?_⟩
  · intro hempty
    simp only [deliverQueuedNotifications]
    rw [if_neg (by simp [hempty])]
    exact ⟨mapContains_eraseKey_self queue userId, mapGet_eraseKey_self queue userId⟩
  · intro hne
    simp only [deliverQueuedNotifications]
    have hlen : (sweepQueue deliverOk now (mapGet queue userId)).2.2.length > 0 :=
      List.length_pos.mpr hne
    rw [if_pos hlen, mapGet_mapSet_self]
    exact sweepQueue_remaining_eq_filter deliverOk now (mapGet queue userId)

/-- Witness for C8: a fully delivered queue leaves no entry in the store,
and a failing transport retains exactly the non-expired failed item. -/
theorem deliverQueued_remaining_witness :
    ((sweepQueue deliverAlways nowAfterT (mapGet qFresh "u1")).2.2 = [] ∧
      mapContains (deliverQueuedNotifications deliverAlways nowAfterT "u1" qFresh).2.1 "u1"
          = false) ∧
    ((sweepQueue deliverNever nowAfterT (mapGet qFailing "u1")).2.2 ≠ [] ∧
      mapGet (deliverQueuedNotifications deliverNever nowAfterT "u1" qFailing).2.1 "u1" =
        (mapGet qFailing "u1").filter
          (fun n => !isExpired nowAfterT n && !deliverNever n)) :=
  ⟨⟨by decide,
    ((deliverQueued_remaining_spec deliverAlways nowAfterT "u1" qFresh).2.1 (by decide)).1⟩,
   ⟨by decide,
    (deliverQueued_remaining_spec deliverNever nowAfterT "u1" qFailing).2.2 (by decide)⟩⟩

/-- C9 (amended): the sweep operation returns only the count of items it
successfully delivered — equal to the length of the delivery trace; expired
and remaining counts are not part of the returned value and are observable
only through the queue state. -/
theorem deliverQueued_returns_delivered_count :
    ∀ (deliverOk : QueuedNotification → Bool) (now : DateTime) (userId : String)
      (queue : QueueMap),
      (deliverQueuedNotifications deliverOk now userId queue).1 =
        (deliverQueuedNotifications deliverOk now userId queue).2.2.length := by
  intro deliverOk now userId queue
  simp only [deliverQueuedNotifications]
  exact sweepQueue_count_eq_length deliverOk now (mapGet queue userId)

/-- Counterexample for C9 as stated: two sweeps whose expired counts differ
(one expired drop versus none) return the same value, and two sweeps whose
remaining counts differ (one retained item versus none) also return the same
value, so the returned result reports neither an expired nor a remaining
count. -/
theorem sweep_reports_only_delivered_cex :
    (deliverQueuedNotifications deliverNever nowAfterT "u1" [("u1", [itemExpired])]).1 =
      (deliverQueuedNotifications deliverNever nowAfterT "u1" ([] : QueueMap)).1 ∧
    ((mapGet [("u1", [itemExpired])] "u1").filter (fun n => isExpired nowAfterT n)).length ≠
      ((mapGet ([] : QueueMap) "u1").filter (fun n => isExpired nowAfterT n)).length ∧
    (deliverQueuedNotifications deliverNever nowAfterT "u1" [("u1", [itemFresh])]).1 =
      (deliverQueuedNotifications deliverNever nowAfterT "u1" ([] : QueueMap)).1 ∧
    (mapGet (deliverQueuedNotifications deliverNever nowAfterT "u1"
        [("u1", [itemFresh])]).2.1 "u1").length ≠
      (mapGet (deliverQueuedNotifications deliverNever nowAfterT "u1"
        ([] : QueueMap)).2.1 "u1").length := by
  decide

/-- C10: the suppression decision reads only the UTC hour and minute of the
instant: two instants agreeing on those two fields yield the same
isWithinQuietHours result for any stored window set, regardless of calendar
date, seconds and milliseconds. -/
theorem isWithinQuietHours_minute_only :
    ∀ (ws : List QuietHoursEntity) (d1 d2 : DateTime),
      d1.hours = d2.hours → d1.minutes = d2.minutes →
      isWithinQuietHours ws d1 = isWithinQuietHours ws d2 := by
  intro ws d1 d2 h1 h2
  unfold isWithinQuietHours
  rw [h1, h2]

/-- Witness for C10: 23:30 on two different calendar dates with different
seconds and milliseconds give the same decision. -/
theorem isWithinQuietHours_minute_only_witness :
    dNight.hours = dOther.hours ∧ dNight.minutes = dOther.minutes ∧
    isWithinQuietHours [windowNight] dNight = isWithinQuietHours [windowNight] dOther :=
  ⟨rfl, rfl, isWithinQuietHours_minute_only [windowNight] dNight dOther rfl rfl⟩
